import Mathlib

/-
Shallow embedding of the replicate-api request handlers.

Source files:
  src/server.js                 express POST /generate, model black-forest-labs/flux-dev
  src/api/generate-image.js     two handler variants: a flux-dev handler identical in
                                logic to server.js, and an imagen-4/kling-v2.1 handler
                                with extractUrl, runWithRetry, handleImageGeneration and
                                handleVideoGeneration
  src/api/generate.js           seedream-3 handler variants; the first variant (lines
                                1-160) carries the allow-list, guidance alias and the
                                three-branch output-shape normalization

JavaScript values that flow through the handlers are modelled by JSValue (for
request parameter dictionaries) and JSOut (for provider outputs, where the code
duck-types on typeof, Array.isArray, instanceof Blob/Uint8Array and the url/output
properties).  Numbers are modelled as rationals: the handlers never do arithmetic
on them, only typeof checks and copying.
-/

/-- A JavaScript value as it can appear in a caller-supplied parameter
dictionary.  `other` stands for any value that is not a string, number,
boolean, null or undefined (for example a nested object or array); the
handlers only ever probe typeof/nullness/truthiness of these values. -/
inductive JSValue where
  | str (s : String)
  | num (q : ℚ)
  | bool (b : Bool)
  | null
  | undef
  | other
deriving DecidableEq, Repr

/-- JavaScript truthiness of a JSValue ("" and 0 and false and null and
undefined are falsy; any object is truthy). -/
def truthyV : JSValue → Bool
  | .str s => s != ""
  | .num q => decide (q ≠ 0)
  | .bool b => b
  | .null => false
  | .undef => false
  | .other => true

/-- Models `typeof v === "number"` for a possibly-absent property. -/
def isNumV : Option JSValue → Bool
  | some (.num _) => true
  | _ => false

/-- A JavaScript object, as an association list in property-insertion order. -/
abbrev Obj : Type := List (String × JSValue)

/-- Property lookup.  Objects built by this model never hold duplicate keys,
so first-match lookup agrees with JavaScript property access. -/
def Obj.get (o : Obj) (k : String) : Option JSValue :=
  (List.find? (fun p => p.1 == k) o).map (fun p => p.2)

/-- Property assignment `o[k] = v` (replaces any previous binding of k). -/
def Obj.set (o : Obj) (k : String) (v : JSValue) : Obj :=
  List.filter (fun p => p.1 != k) o ++ [(k, v)]

/-- The key list of an object. -/
def Obj.keys (o : Obj) : List String :=
  List.map (fun p => p.1) o

/-- Object spread `{...b, ...l}`: every property of l overrides b. -/
def Obj.spread (b l : Obj) : Obj :=
  List.foldl (fun acc kv => Obj.set acc kv.1 kv.2) b l

/-- The nullish-coalescing default `v ?? d` (absent = undefined). -/
def jsNullish (v : Option JSValue) (d : JSValue) : JSValue :=
  match v with
  | some x => if x = .null ∨ x = .undef then d else x
  | none => d

/-- The logical-or default `v || d` on a possibly-absent property. -/
def jsOrV (v : Option JSValue) (d : JSValue) : JSValue :=
  match v with
  | some x => if truthyV x then x else d
  | none => d

/-- The logical-or default on a possibly-absent string (used for
`r.headers.get("content-type") || dflt`, where an empty string is falsy). -/
def jsOrStr (v : Option String) (d : String) : String :=
  match v with
  | some t => if t = "" then d else t
  | none => d

/-- Does the character list `p` occur at the start of `l`? -/
def listStarts : List Char → List Char → Bool
  | [], _ => true
  | _ :: _, [] => false
  | c :: cs, d :: ds => c == d && listStarts cs ds

/-- Does the character list `p` occur anywhere in `l`? -/
def listHasSub : List Char → List Char → Bool
  | [], p => p.isEmpty
  | d :: ds, p => listStarts p (d :: ds) || listHasSub ds p

/-- Models JavaScript `s.includes(sub)`. -/
def strIncludes (s sub : String) : Bool :=
  listHasSub s.toList sub.toList

/-- Models the regular-expression test for an http(s) URL prefix used in
generate.js: a match of a leading "http://" or "https://". -/
def httpTest (s : String) : Bool :=
  listStarts "http://".toList s.toList || listStarts "https://".toList s.toList

/-- The shape of the `url` own property of a provider-output object:
a function (whose eventual string value we record), a string, some other
type, or absent. -/
inductive UrlAttr where
  | fn (ret : String)
  | strAttr (s : String)
  | otherAttr
deriving DecidableEq, Repr

/-- A provider output value, as duck-typed by the handlers.  `jobj` is a
plain object carrying the shapes of its `url` and `output` properties (the
only ones the resolvers probe; a non-string `output` property behaves like
an absent one, so it is folded into `none`).  `jblob` and `juint8` model
genuine Blob / Uint8Array instances, which have no own `url`/`output`
properties; a Blob declares a content type (possibly the empty string). -/
inductive JSOut where
  | jstr (s : String)
  | jnum (q : ℚ)
  | jarr (xs : List JSOut)
  | jobj (url : Option UrlAttr) (outputAttr : Option String)
  | jblob (data : List ℕ) (btype : String)
  | juint8 (data : List ℕ)
  | jnull
  | jundef

/-- JavaScript truthiness of a provider output value. -/
def truthyOut : JSOut → Bool
  | .jstr s => s != ""
  | .jnum q => decide (q ≠ 0)
  | .jnull => false
  | .jundef => false
  | _ => true

/-- JavaScript `typeof` of a provider output value (typeof null is "object"). -/
def jsTypeof : JSOut → String
  | .jstr _ => "string"
  | .jnum _ => "number"
  | .jundef => "undefined"
  | _ => "object"

/-- Is the value null or undefined? -/
def nullishOut : JSOut → Bool
  | .jnull => true
  | .jundef => true
  | _ => false

/-- The `url` own property of the value (absent on anything but a plain object). -/
def urlAttrOf : JSOut → Option UrlAttr
  | .jobj u _ => u
  | _ => none

/-- The string-typed `output` own property of the value, when present. -/
def outputAttrOf : JSOut → Option String
  | .jobj _ o => o
  | _ => none

/-- Models `output instanceof Blob`. -/
def isBlobOut : JSOut → Bool
  | .jblob _ _ => true
  | _ => false

/-- Models `output instanceof Uint8Array`. -/
def isUint8Out : JSOut → Bool
  | .juint8 _ => true
  | _ => false

/-- The raw bytes of a binary output value. -/
def bytesOut : JSOut → List ℕ
  | .jblob d _ => d
  | .juint8 d => d
  | _ => []

/-- The declared `type` property of a binary output value (Blob only). -/
def blobTypeOut : JSOut → Option String
  | .jblob _ t => some t
  | _ => none

/-- Models the first branch guard in generate.js lines 77-88:
`output && typeof output === "object" && typeof output.url === "function"`. -/
def hasUrlFn (o : JSOut) : Bool :=
  truthyOut o && (jsTypeof o == "object") &&
    (match urlAttrOf o with
     | some (.fn _) => true
     | _ => false)

/-- The string the url() accessor yields (used after hasUrlFn holds). -/
def urlFnRet (o : JSOut) : String :=
  match urlAttrOf o with
  | some (.fn u) => u
  | _ => ""

/-- Models `typeof output === "string" && /^https?:\/\//.test(output)`. -/
def isHttpString : JSOut → Bool
  | .jstr s => httpTest s
  | _ => false

/-- The string payload of a string output. -/
def strValOf : JSOut → String
  | .jstr s => s
  | _ => ""

/-- The content type attached to a directly-returned binary output:
`typeof output.type === "string" && output.type` overrides the
"image/jpeg" default (generate.js lines 97-99). -/
def blobContentType (o : JSOut) : String :=
  match blobTypeOut o with
  | some t => if t = "" then "image/jpeg" else t
  | none => "image/jpeg"

/-- The outcome of the output-shape normalization in generate.js lines 72-124. -/
inductive Resolved where
  | fetchFromUrlFn (url : String)
  | directBytes (data : List ℕ) (contentType : String)
  | fetchFromString (url : String)
  | unrecognizedShape (tp : String) (hasUrl isU8 isB : Bool)
deriving DecidableEq, Repr

/-- The output-shape normalization of the seedream-3 handler
(src/api/generate.js lines 72-124), branch for branch: (1) an object with a
callable url accessor, (2) a Blob or Uint8Array taken as raw bytes, (3) a
string matching the http(s) regular expression, (4) otherwise the
"Unrecognized model output shape" failure with its debug fields. -/
def resolveShape (o : JSOut) : Resolved :=
  if hasUrlFn o then
    .fetchFromUrlFn (urlFnRet o)
  else if isBlobOut o || isUint8Out o then
    .directBytes (bytesOut o) (blobContentType o)
  else if isHttpString o then
    .fetchFromString (strValOf o)
  else
    .unrecognizedShape (jsTypeof o) (hasUrlFn o) (isUint8Out o) (isBlobOut o)

/-- extractUrl from src/api/generate-image.js lines 158-168: null for a
falsy output; for an array, `output[0] ?? null` (the element itself, with no
recursion); a string is returned as is (with no URL check); for an object,
the url() result, then a string url property, then a string output
property; otherwise null. -/
def extractUrl (o : JSOut) : Option JSOut :=
  if truthyOut o then
    match o with
    | .jarr xs =>
      match xs.head? with
      | some v => if nullishOut v then none else some v
      | none => none
    | .jstr s => some (.jstr s)
    | .jobj u oa =>
      (match u with
       | some (.fn ret) => some (.jstr ret)
       | some (.strAttr s) => some (.jstr s)
       | _ =>
         match oa with
         | some s => some (.jstr s)
         | none => none)
    | _ => none
  else none

/-- extractUrl followed by the caller's `if (!url)` truthiness check
(generate-image.js lines 245-248 and 304-307). -/
def extractUrlTruthy (o : JSOut) : Option JSOut :=
  match extractUrl o with
  | some u => if truthyOut u then some u else none
  | none => none

/-- `output[0]` in server.js line 60 (undefined on an empty array). -/
def headOut : JSOut → JSOut
  | .jarr (x :: _) => x
  | .jarr [] => .jundef
  | o => o

/-- Is the output an array? -/
def isArrOut : JSOut → Bool
  | .jarr _ => true
  | _ => false

/-- The URL extraction of server.js lines 60-68: on the (first element of
an array) value, a truthy guard, then string, then callable url, then
string url property. -/
def serverImageUrl (first : JSOut) : Option String :=
  if truthyOut first then
    match first with
    | .jstr s => some s
    | f =>
      match urlAttrOf f with
      | some (.fn u) => some u
      | some (.strAttr s) => some s
      | _ => none
  else none

/-- The flux-dev default input literal of src/server.js lines 41-53 and
src/api/generate-image.js lines 42-54, before the client-input spread. -/
def fluxBase (prompt : JSValue) (disableSafety : Bool) : Obj :=
  [("prompt", prompt),
   ("aspect_ratio", .str "9:16"),
   ("go_fast", .bool false),
   ("guidance", .num (5/2)),
   ("megapixels", .str "1"),
   ("num_outputs", .num 1),
   ("output_format", .str "webp"),
   ("output_quality", .num 100),
   ("num_inference_steps", .num 50),
   ("disable_safety_checker", .bool disableSafety)]

/-- The parameter names the flux-dev build itself introduces. -/
def fluxDefaultKeys : List String :=
  ["prompt", "aspect_ratio", "go_fast", "guidance", "megapixels", "num_outputs",
   "output_format", "output_quality", "num_inference_steps", "disable_safety_checker"]

/-- The flux-dev input object `{prompt, ...defaults, ...(clientInput || {})}`
(server.js lines 41-53; generate-image.js lines 42-54): the caller's fields
are spread last, over the defaults. -/
def fluxDevInput (prompt : JSValue) (ci : Option Obj) (disableSafety : Bool) : Obj :=
  Obj.spread (fluxBase prompt disableSafety) (ci.getD [])

/-- The megapixels clamp of server.js lines 54-55 / generate-image.js lines
56-58: any value other than the strings "1" and "0.25" is replaced by "1". -/
def clampMegapixels (o : Obj) : Obj :=
  if Obj.get o "megapixels" ≠ some (.str "1") ∧ Obj.get o "megapixels" ≠ some (.str "0.25") then
    Obj.set o "megapixels" (.str "1")
  else o

/-- The complete flux-dev input as sent to the provider. -/
def fluxModelInput (prompt : JSValue) (ci : Option Obj) (disableSafety : Bool) : Obj :=
  clampMegapixels (fluxDevInput prompt ci disableSafety)

/-- The seedream-3 allow-list of src/api/generate.js lines 33-40. -/
def seedreamAllowedKeys : List String :=
  ["seed", "size", "width", "height", "aspect_ratio", "guidance_scale"]

/-- The imagen-4 allow-list of src/api/generate-image.js lines 143-147. -/
def ALLOWED_IMAGE_KEYS : List String :=
  ["seed", "prompt", "guidance", "image_size", "speed_mode", "aspect_ratio",
   "output_format", "output_quality", "num_inference_steps", "safety_filter_level"]

/-- The kling-v2.1 video allow-list of src/api/generate-image.js lines 149-156. -/
def ALLOWED_VIDEO_KEYS : List String :=
  ["seed", "prompt", "image", "go_fast", "num_frames", "resolution",
   "sample_shift", "frames_per_second", "disable_safety_checker",
   "lora_scale_transformer", "lora_scale_transformer_2",
   "lora_weights_transformer", "lora_weights_transformer_2",
   "text", "mode", "duration", "start_image", "negative_prompt"]

/-- The copy loop `for (const [k, v] of Object.entries(clientInput)) if
(allowedKeys.has(k)) sanitized[k] = v` of generate.js lines 49-51, starting
from a given initial object. -/
def sanitizeFold (allowed : List String) (init : Obj) (l : Obj) : Obj :=
  List.foldl (fun acc kv => if kv.1 ∈ allowed then Obj.set acc kv.1 kv.2 else acc) init l

/-- The guidance → guidance_scale back-compat alias of generate.js lines
43-48: seeds `sanitized` with guidance_scale when guidance is a number and
guidance_scale is not. -/
def seedreamInit (l : Obj) : Obj :=
  match Obj.get l "guidance", Obj.get l "guidance_scale" with
  | some (.num q), gs => if isNumV gs then [] else [("guidance_scale", .num q)]
  | _, _ => []

/-- The sanitized client input of the seedream-3 handler (generate.js lines
41-52); `none` models an absent or non-object clientInput. -/
def seedreamSanitize : Option Obj → Obj
  | none => []
  | some l => sanitizeFold seedreamAllowedKeys (seedreamInit l) l

/-- `typeof v === "number" ? v : d`. -/
def numOrD (v : Option JSValue) (d : ℚ) : JSValue :=
  match v with
  | some (.num q) => .num q
  | _ => .num d

/-- The conditional spread `...(typeof v === "number" ? { k: v } : {})`. -/
def numEntry (k : String) (v : Option JSValue) : Obj :=
  match v with
  | some (.num q) => [(k, .num q)]
  | _ => []

/-- The seedream-3 provider input of generate.js lines 55-64: mandatory
prompt, nullish-defaulted aspect_ratio and size, number-defaulted
guidance_scale, and seed/width/height only when numeric. -/
def seedreamBuild (prompt : String) (ci : Option Obj) : Obj :=
  [("prompt", .str prompt),
   ("aspect_ratio", jsNullish (Obj.get (seedreamSanitize ci) "aspect_ratio") (.str "9:16")),
   ("size", jsNullish (Obj.get (seedreamSanitize ci) "size") (.str "regular")),
   ("guidance_scale", numOrD (Obj.get (seedreamSanitize ci) "guidance_scale") (7/2))]
  ++ numEntry "seed" (Obj.get (seedreamSanitize ci) "seed")
  ++ numEntry "width" (Obj.get (seedreamSanitize ci) "width")
  ++ numEntry "height" (Obj.get (seedreamSanitize ci) "height")

/-- The copy loop of handleImageGeneration / handleVideoGeneration
(generate-image.js lines 223-228 and 275-280), which also drops undefined
and null values. -/
def sanitizeNN (allowed : List String) : Option Obj → Obj
  | none => []
  | some l =>
    List.foldl
      (fun acc kv =>
        if kv.1 ∈ allowed ∧ kv.2 ≠ .undef ∧ kv.2 ≠ .null then Obj.set acc kv.1 kv.2 else acc)
      [] l

/-- The imagen-4 provider input of generate-image.js lines 230-234. -/
def imagenInput (prompt : String) (sanitized : Obj) : Obj :=
  [("prompt", .str prompt),
   ("aspect_ratio", jsOrV (Obj.get sanitized "aspect_ratio") (.str "4:3")),
   ("safety_filter_level", jsOrV (Obj.get sanitized "safety_filter_level") (.str "block_medium_and_above"))]

/-- The kling-v2.1 provider input of generate-image.js lines 287-293:
mandatory prompt and resolved start image, then mode and duration when
truthy and negative_prompt when a string. -/
def videoInput (prompt : String) (startImage : JSValue) (sanitized : Obj) : Obj :=
  [("prompt", .str prompt), ("start_image", startImage)]
  ++ (match Obj.get sanitized "mode" with
      | some v => if truthyV v then [("mode", v)] else []
      | none => [])
  ++ (match Obj.get sanitized "duration" with
      | some v => if truthyV v then [("duration", v)] else []
      | none => [])
  ++ (match Obj.get sanitized "negative_prompt" with
      | some (.str s) => [("negative_prompt", .str s)]
      | _ => [])

/-- `sanitized.start_image ?? image` (generate-image.js line 282); the
request's `image` field is `none` when absent. -/
def resolvedStartImage (sanitized : Obj) (image : Option JSValue) : Option JSValue :=
  match Obj.get sanitized "start_image" with
  | some v => if v = .null ∨ v = .undef then image else some v
  | none => image

/-- Keep a possibly-absent value only when truthy (the `if (!x)` guards). -/
def truthyOptV : Option JSValue → Option JSValue
  | some v => if truthyV v then some v else none
  | none => none

/-- An error thrown by the provider SDK or returned by storage: the
handlers read only its optional message and status. -/
structure JsErr where
  message : Option String
  status : Option ℕ
deriving DecidableEq, Repr

/-- `err?.status || 500` on the caught value (which is null when no
attempt ran). -/
def jsErrStatus : Option JsErr → ℕ
  | some e =>
    match e.status with
    | some n => if n = 0 then 500 else n
    | none => 500
  | none => 500

/-- `err?.message || dflt` on the caught value. -/
def jsErrMsg (e : Option JsErr) (dflt : String) : String :=
  match e with
  | some er =>
    match er.message with
    | some m => if m = "" then dflt else m
    | none => dflt
  | none => dflt

/-- `uploadError.message || String(uploadError)` (generate-image.js lines
263 and 321); String() of a plain error object prints as "[object Object]". -/
def uploadErrBody (ue : JsErr) : String :=
  match ue.message with
  | some m => if m = "" then "[object Object]" else m
  | none => "[object Object]"

/-- The observable outcome of runWithRetry (generate-image.js lines
172-195): the returned output or the thrown lastErr, the number of
replicate.run calls made, and the jittered delays slept between attempts. -/
structure RetryTrace where
  result : Except (Option JsErr) JSOut
  calls : ℕ
  sleeps : List ℕ

/-- The retry loop body, with fuel = tries - i kept in lockstep so the
recursion is structural. -/
def runLoop (attempt : ℕ → Except JsErr JSOut) (randFloor : ℕ → ℕ) (tries : ℕ) :
    ℕ → ℕ → Option JsErr → List ℕ → RetryTrace
  | 0, i, lastErr, sleeps => ⟨.error lastErr, i, sleeps⟩
  | fuel + 1, i, _lastErr, sleeps =>
    match attempt i with
    | .ok v => ⟨.ok v, i + 1, sleeps⟩
    | .error e =>
      if i < tries - 1 then
        runLoop attempt randFloor tries fuel (i + 1) (some e)
          (sleeps ++ [300 + randFloor i])
      else
        runLoop attempt randFloor tries fuel (i + 1) (some e) sleeps

/-- runWithRetry of generate-image.js lines 172-195: up to `tries` calls of
`attempt`, sleeping `300 + Math.floor(Math.random() * 500)` milliseconds
(the i-th random draw is `randFloor i`, always below 500) between attempts,
throwing the last error when every attempt failed. -/
def runWithRetry (attempt : ℕ → Except JsErr JSOut) (randFloor : ℕ → ℕ) (tries : ℕ) :
    RetryTrace :=
  runLoop attempt randFloor tries tries 0 none []

/-- The result of a fetch: ok flag, status, statusText, the content-type
header (none when missing) and the body bytes. -/
structure FetchRes where
  ok : Bool
  status : ℕ
  statusText : String
  contentTypeHeader : Option String
  bytes : List ℕ
deriving DecidableEq, Repr

/-- The external collaborators of a handler, made explicit: the provider
(`attemptResult model input i` is the outcome of the i-th replicate.run
call), the random source backing the retry jitter, fetch, the storage
upload (an error, or none for success), the public-URL derivation, the
generated uuid, and the outcome of the messages-table insert. -/
structure Env where
  attemptResult : String → Obj → ℕ → Except JsErr JSOut
  randFloor : ℕ → ℕ
  fetchResult : JSOut → FetchRes
  uploadError : String → Option JsErr
  publicUrl : String → String
  uuid : String
  insertError : Option JsErr

/-- The JSON response bodies the handlers can produce. -/
inductive RespBody where
  | errorBody (msg : String)
  | errorDebug (msg tp : String) (hasUrl isU8 isB : Bool)
  | imageOk (path url : String)
  | imageOkTyped (path url : String)
  | videoOk (path url : String)
  | seedreamOk (path url : String) (generationTime : ℕ)
deriving DecidableEq, Repr

/-- An HTTP response: status code and JSON body. -/
structure HttpResponse where
  status : ℕ
  body : RespBody
deriving DecidableEq, Repr

/-- The externally visible side effects of one handler run: how many
replicate.run calls were made, which (path, contentType) uploads were
attempted, and how many messages-table inserts were attempted. -/
structure Effects where
  providerCalls : ℕ
  uploads : List (String × String)
  insertAttempts : ℕ
deriving DecidableEq, Repr

/-- No side effects. -/
def noFx : Effects := ⟨0, [], 0⟩

/-- The guard `if (!prompt || !userId || !characterId)` on the required
request fields (each modelled as an optional string; absent or empty is
falsy). -/
def truthyStr : Option String → Bool
  | some s => s != ""
  | none => false

/-- True when a required field is missing or empty. -/
def reqMissing (p u c : Option String) : Bool :=
  !truthyStr p || !truthyStr u || !truthyStr c

/-- Extension choice of handleImageGeneration (generate-image.js line 257):
png, then webp, then jpg. -/
def extImagen (ct : String) : String :=
  if strIncludes ct "png" then "png"
  else if strIncludes ct "webp" then "webp"
  else "jpg"

/-- Extension choice of the seedream-3 handler (generate.js lines 126-132):
png, then jpeg/jpg, then webp, then jpg. -/
def extSeedream (ct : String) : String :=
  if strIncludes ct "png" then "png"
  else if strIncludes ct "jpeg" || strIncludes ct "jpg" then "jpg"
  else if strIncludes ct "webp" then "webp"
  else "jpg"

/-- Extension choice of server.js lines 76-80: png, then jpeg/jpg, then webp. -/
def extServer (ct : String) : String :=
  if strIncludes ct "png" then "png"
  else if strIncludes ct "jpeg" || strIncludes ct "jpg" then "jpg"
  else "webp"

/-- `${r.status} ${r.statusText}` appended to a download-failure message. -/
def downloadFailMsg (what : String) (r : FetchRes) : String :=
  "Failed to download " ++ what ++ ": " ++ toString r.status ++ " " ++ r.statusText

/-- `r.status || 502` (generate.js line 82). -/
def statusOr502 (n : ℕ) : ℕ :=
  if n = 0 then 502 else n

/-- Does the raw clientInput carry a string `text` property
(generate-image.js line 324)? -/
def hasTextString : Option Obj → Bool
  | some l =>
    match Obj.get l "text" with
    | some (.str _) => true
    | _ => false
  | none => false

/-- handleImageGeneration of src/api/generate-image.js lines 218-268:
required-field guard, allow-list sanitize, imagen-4 input build, two-try
retry, extractUrl with truthiness check, download, upload under
`userId/characterId/uuid.ext`, 200 `{type:"image", path, url}`. -/
def handleImageGeneration (env : Env) (prompt userId characterId : Option String)
    (clientInput : Option Obj) : HttpResponse × Effects :=
  if reqMissing prompt userId characterId then
    (⟨400, .errorBody "prompt, userId, characterId required"⟩, noFx)
  else
    let sanitized := sanitizeNN ALLOWED_IMAGE_KEYS clientInput
    let input := imagenInput (prompt.getD "") sanitized
    let tr := runWithRetry (env.attemptResult "google/imagen-4" input) env.randFloor 2
    match tr.result with
    | .error e =>
      (⟨jsErrStatus e, .errorBody (jsErrMsg e "Image generation failed")⟩, ⟨tr.calls, [], 0⟩)
    | .ok output =>
      match extractUrlTruthy output with
      | none => (⟨500, .errorBody "Image generation failed (no URL)"⟩, ⟨tr.calls, [], 0⟩)
      | some u =>
        let r := env.fetchResult u
        if r.ok then
          let contentType := jsOrStr r.contentTypeHeader "image/jpeg"
          let path := userId.getD "" ++ "/" ++ characterId.getD "" ++ "/" ++
            env.uuid ++ "." ++ extImagen contentType
          match env.uploadError path with
          | some ue =>
            (⟨500, .errorBody (uploadErrBody ue)⟩, ⟨tr.calls, [(path, contentType)], 0⟩)
          | none =>
            (⟨200, .imageOkTyped path (env.publicUrl path)⟩, ⟨tr.calls, [(path, contentType)], 0⟩)
        else
          (⟨502, .errorBody (downloadFailMsg "image" r)⟩, ⟨tr.calls, [], 0⟩)

/-- handleVideoGeneration of src/api/generate-image.js lines 270-338:
required-field guard, allow-list sanitize, start-image resolution with its
own 400, kling input build, two-try retry, extractUrl, download, upload
under `userId/characterId/videos/uuid.mp4`, an attempted messages insert
whose outcome is swallowed by the empty catch, then 200
`{type:"video", path, url}`. -/
def handleVideoGeneration (env : Env) (prompt : Option String) (image : Option JSValue)
    (userId characterId : Option String) (clientInput : Option Obj) :
    HttpResponse × Effects :=
  if reqMissing prompt userId characterId then
    (⟨400, .errorBody "prompt, userId, characterId required"⟩, noFx)
  else
    let sanitized := sanitizeNN ALLOWED_VIDEO_KEYS clientInput
    match truthyOptV (resolvedStartImage sanitized image) with
    | none => (⟨400, .errorBody "image or start_image required for video"⟩, noFx)
    | some startImage =>
      let input := videoInput (prompt.getD "") startImage sanitized
      let tr := runWithRetry (env.attemptResult "kwaivgi/kling-v2.1" input) env.randFloor 2
      match tr.result with
      | .error e =>
        (⟨jsErrStatus e, .errorBody (jsErrMsg e "Video generation failed")⟩, ⟨tr.calls, [], 0⟩)
      | .ok output =>
        match extractUrlTruthy output with
        | none => (⟨500, .errorBody "Video generation failed (no URL)"⟩, ⟨tr.calls, [], 0⟩)
        | some u =>
          let r := env.fetchResult u
          if r.ok then
            let contentType := jsOrStr r.contentTypeHeader "video/mp4"
            let path := userId.getD "" ++ "/" ++ characterId.getD "" ++ "/videos/" ++
              env.uuid ++ ".mp4"
            match env.uploadError path with
            | some ue =>
              (⟨500, .errorBody (uploadErrBody ue)⟩, ⟨tr.calls, [(path, contentType)], 0⟩)
            | none =>
              let inserts := if hasTextString clientInput then 1 else 0
              (⟨200, .videoOk path (env.publicUrl path)⟩,
               ⟨tr.calls, [(path, contentType)], inserts⟩)
          else
            (⟨502, .errorBody (downloadFailMsg "video" r)⟩, ⟨tr.calls, [], 0⟩)

/-- The upload tail of the seedream-3 handler (generate.js lines 126-155). -/
def seedreamUpload (env : Env) (generationTime : ℕ) (userId characterId : Option String)
    (contentType : String) : HttpResponse × Effects :=
  let path := userId.getD "" ++ "/" ++ characterId.getD "" ++ "/" ++
    env.uuid ++ "." ++ extSeedream contentType
  match env.uploadError path with
  | some ue => (⟨500, .errorBody (uploadErrBody ue)⟩, ⟨1, [(path, contentType)], 0⟩)
  | none =>
    (⟨200, .seedreamOk path (env.publicUrl path) generationTime⟩, ⟨1, [(path, contentType)], 0⟩)

/-- The download step of the seedream-3 handler (generate.js lines 79-88
and 103-112): a non-ok response is `r.status || 502`, else the content-type
header (or "image/jpeg") flows into the upload step. -/
def seedreamFetch (env : Env) (generationTime : ℕ) (userId characterId : Option String)
    (u : String) : HttpResponse × Effects :=
  let r := env.fetchResult (.jstr u)
  if r.ok then
    seedreamUpload env generationTime userId characterId (jsOrStr r.contentTypeHeader "image/jpeg")
  else
    (⟨statusOr502 r.status, .errorBody (downloadFailMsg "image" r)⟩, ⟨1, [], 0⟩)

/-- The seedream-3 handler of src/api/generate.js lines 26-159 (POST body
processing): required-field guard, alias + allow-list normalization, input
build with defaults, one replicate.run call (any thrown error is caught by
the surrounding try and becomes a 500), output-shape resolution, download
where needed, upload under `userId/characterId/uuid.ext`, 200
`{path, url, generationTime}`. -/
def seedreamHandler (env : Env) (generationTime : ℕ)
    (prompt userId characterId : Option String) (clientInput : Option Obj) :
    HttpResponse × Effects :=
  if reqMissing prompt userId characterId then
    (⟨400, .errorBody "prompt, userId, characterId required"⟩, noFx)
  else
    let input := seedreamBuild (prompt.getD "") clientInput
    match env.attemptResult "bytedance/seedream-3" input 0 with
    | .error e => (⟨500, .errorBody (jsErrMsg (some e) "Unknown error")⟩, ⟨1, [], 0⟩)
    | .ok output =>
      match resolveShape output with
      | .unrecognizedShape tp hasUrl isU8 isB =>
        (⟨500, .errorDebug "Unrecognized model output shape" tp hasUrl isU8 isB⟩, ⟨1, [], 0⟩)
      | .directBytes _ ct =>
        seedreamUpload env generationTime userId characterId ct
      | .fetchFromUrlFn u =>
        seedreamFetch env generationTime userId characterId u
      | .fetchFromString u =>
        seedreamFetch env generationTime userId characterId u

/-- The POST /generate handler of src/server.js lines 32-98: required-field
guard, flux-dev input build with megapixels clamp, one replicate.run call,
URL extraction (string / url() / url string on the first array element),
download, upload under `userId/characterId/uuid.ext`, 200 `{path, url}`;
every thrown error becomes a 500 with the error message. -/
def serverGenerate (env : Env) (disableSafety : Bool)
    (prompt userId characterId : Option String) (clientInput : Option Obj) :
    HttpResponse × Effects :=
  if reqMissing prompt userId characterId then
    (⟨400, .errorBody "prompt, userId, characterId required"⟩, noFx)
  else
    let input := fluxModelInput (.str (prompt.getD "")) clientInput disableSafety
    match env.attemptResult "black-forest-labs/flux-dev" input 0 with
    | .error e => (⟨500, .errorBody (jsErrMsg (some e) "Unknown error")⟩, ⟨1, [], 0⟩)
    | .ok output =>
      let first := if isArrOut output then headOut output else output
      match serverImageUrl first with
      | none => (⟨500, .errorBody "No image URL returned by model"⟩, ⟨1, [], 0⟩)
      | some u =>
        if u = "" then (⟨500, .errorBody "No image URL returned by model"⟩, ⟨1, [], 0⟩)
        else
          let r := env.fetchResult (.jstr u)
          if r.ok then
            let contentType := jsOrStr r.contentTypeHeader "image/webp"
            let path := userId.getD "" ++ "/" ++ characterId.getD "" ++ "/" ++
              env.uuid ++ "." ++ extServer contentType
            match env.uploadError path with
            | some ue => (⟨500, .errorBody (jsErrMsg (some ue) "Unknown error")⟩,
                          ⟨1, [(path, contentType)], 0⟩)
            | none => (⟨200, .imageOk path (env.publicUrl path)⟩, ⟨1, [(path, contentType)], 0⟩)
          else
            (⟨500, .errorBody (downloadFailMsg "image" r)⟩, ⟨1, [], 0⟩)



/-- A concrete provider error: message "boom", HTTP status 503. -/
def failErr : JsErr := ⟨some "boom", some 503⟩

/-- An environment whose provider fails every attempt with failErr. -/
def retryFailEnv : Env :=
  { attemptResult := fun _ _ _ => .error failErr
    randFloor := fun _ => 42
    fetchResult := fun _ => ⟨true, 200, "OK", some "image/png", []⟩
    uploadError := fun _ => none
    publicUrl := fun pth => pth
    uuid := "w"
    insertError := none }

/-- An environment for a fully successful video generation run. -/
def videoOkEnv : Env :=
  { attemptResult := fun _ _ _ => .ok (.jstr "https://p.example/v.mp4")
    randFloor := fun _ => 0
    fetchResult := fun _ => ⟨true, 200, "OK", some "video/mp4", [1, 2]⟩
    uploadError := fun _ => none
    publicUrl := fun pth => "https://cdn.example/" ++ pth
    uuid := "uuid-1"
    insertError := none }

/-- videoOkEnv with a failing messages-table insert. -/
def videoFailInsertEnv : Env :=
  { videoOkEnv with insertError := some ⟨some "insert failed", none⟩ }

/-- An environment for a fully successful image generation run whose download
carries content-type image/png. -/
def imageOkEnv : Env :=
  { attemptResult := fun _ _ _ => .ok (.jstr "https://p.example/i.png")
    randFloor := fun _ => 0
    fetchResult := fun _ => ⟨true, 200, "OK", some "image/png", [3]⟩
    uploadError := fun _ => none
    publicUrl := fun pth => "https://cdn.example/" ++ pth
    uuid := "uuid-1"
    insertError := none }

theorem Obj.get_cons (hd : String × JSValue) (tl : Obj) (k : String) :
    Obj.get (hd :: tl) k = if hd.1 = k then some hd.2 else Obj.get tl k := by
  by_cases h : hd.1 = k
  · rw [Obj.get, List.find?_cons_of_pos _ (by simp [h]), if_pos h]
    rfl
  · rw [Obj.get, List.find?_cons_of_neg _ (by simp [h]), if_neg h]
    rfl

theorem Obj.find?_filter_self (o : Obj) (k : String) :
    List.find? (fun p => p.1 == k) (List.filter (fun p => p.1 != k) o) = none := by
  rw [List.find?_eq_none]
  intro x hx
  simp only [List.mem_filter, bne_iff_ne] at hx
  simp [hx.2]

theorem Obj.get_filter (o : Obj) (k k' : String) (h : k' ≠ k) :
    Obj.get (List.filter (fun p => p.1 != k) o) k' = Obj.get o k' := by
  induction o with
  | nil => rfl
  | cons hd tl ih =>
    by_cases hh : hd.1 = k
    · rw [show List.filter (fun p => p.1 != k) (hd :: tl) =
          List.filter (fun p => p.1 != k) tl by simp [List.filter_cons, hh]]
      rw [ih, Obj.get_cons, if_neg (by rw [hh]; exact fun e => h e.symm)]
    · rw [show List.filter (fun p => p.1 != k) (hd :: tl) =
          hd :: List.filter (fun p => p.1 != k) tl by simp [List.filter_cons, hh]]
      rw [Obj.get_cons, Obj.get_cons]
      by_cases h2 : hd.1 = k' <;> simp [h2, ih]

theorem Obj.get_set (o : Obj) (k k' : String) (v : JSValue) :
    Obj.get (Obj.set o k v) k' = if k = k' then some v else Obj.get o k' := by
  by_cases hk : k = k'
  · subst hk
    simp [Obj.set, Obj.get, List.find?_append, Obj.find?_filter_self o k, List.find?]
  · rw [if_neg hk, ← Obj.get_filter o k k' (fun e => hk e.symm)]
    have hb : (k == k') = false := by simp [hk]
    simp [Obj.set, Obj.get, List.find?_append, List.find?, hb]

theorem Obj.get_set_self (o : Obj) (k : String) (v : JSValue) :
    Obj.get (Obj.set o k v) k = some v := by
  simp [Obj.get_set]

theorem Obj.get_set_ne (o : Obj) (k k' : String) (v : JSValue) (h : k' ≠ k) :
    Obj.get (Obj.set o k v) k' = Obj.get o k' := by
  rw [Obj.get_set, if_neg (fun e => h e.symm)]

theorem Obj.get_eq_none_iff (o : Obj) (k : String) :
    Obj.get o k = none ↔ k ∉ Obj.keys o := by
  induction o with
  | nil => simp [Obj.get, Obj.keys, List.find?]
  | cons hd tl ih =>
    rw [Obj.get_cons]
    by_cases h : hd.1 = k
    · simp [h, Obj.keys]
    · simp only [if_neg h, ih, Obj.keys, List.map_cons, List.mem_cons, not_or]
      constructor
      · exact fun hh => ⟨fun e => h e.symm, hh⟩
      · exact fun hh => hh.2

theorem Obj.mem_keys_set (o : Obj) (k x : String) (v : JSValue)
    (hx : x ∈ Obj.keys (Obj.set o k v)) : x ∈ Obj.keys o ∨ x = k := by
  simp only [Obj.set, Obj.keys, List.map_append, List.mem_append, List.mem_map,
    List.map_cons, List.map_nil, List.mem_singleton] at hx
  rcases hx with ⟨p, hp, he⟩ | hx
  · exact Or.inl (List.mem_map.mpr ⟨p, (List.mem_filter.mp hp).1, he⟩)
  · exact Or.inr hx

theorem Obj.spread_cons (b : Obj) (hd : String × JSValue) (tl : Obj) :
    Obj.spread b (hd :: tl) = Obj.spread (Obj.set b hd.1 hd.2) tl := rfl

theorem Obj.spread_get_not_mem (l : Obj) (k : String) :
    ∀ b : Obj, k ∉ Obj.keys l → Obj.get (Obj.spread b l) k = Obj.get b k := by
  induction l with
  | nil => intro b _; rfl
  | cons hd tl ih =>
    intro b h
    simp only [Obj.keys, List.map_cons, List.mem_cons, not_or] at h
    rw [Obj.spread_cons, ih _ h.2, Obj.get_set_ne _ _ _ _ h.1]

theorem Obj.spread_get_mem (l : Obj) (k : String) (v : JSValue) :
    ∀ b : Obj, (Obj.keys l).Nodup → Obj.get l k = some v →
      Obj.get (Obj.spread b l) k = some v := by
  induction l with
  | nil => intro b _ h; simp [Obj.get, List.find?] at h
  | cons hd tl ih =>
    intro b hnd h
    simp only [Obj.keys, List.map_cons, List.nodup_cons] at hnd
    rw [Obj.get_cons] at h
    rw [Obj.spread_cons]
    by_cases hk : hd.1 = k
    · rw [if_pos hk] at h
      subst hk
      rw [Obj.spread_get_not_mem _ _ _ hnd.1, Obj.get_set_self]
      exact h
    · rw [if_neg hk] at h
      exact ih _ hnd.2 h

theorem sanitizeFold_cons (allowed : List String) (init : Obj) (hd : String × JSValue)
    (tl : Obj) :
    sanitizeFold allowed init (hd :: tl) =
      sanitizeFold allowed (if hd.1 ∈ allowed then Obj.set init hd.1 hd.2 else init) tl := rfl

theorem sanitizeFold_get_not_mem (allowed : List String) (l : Obj) (k : String) :
    ∀ init : Obj, k ∉ Obj.keys l →
      Obj.get (sanitizeFold allowed init l) k = Obj.get init k := by
  induction l with
  | nil => intro init _; rfl
  | cons hd tl ih =>
    intro init h
    simp only [Obj.keys, List.map_cons, List.mem_cons, not_or] at h
    rw [sanitizeFold_cons, ih _ h.2]
    by_cases ha : hd.1 ∈ allowed
    · rw [if_pos ha, Obj.get_set_ne _ _ _ _ h.1]
    · rw [if_neg ha]

theorem sanitizeFold_get_mem (allowed : List String) (l : Obj) (k : String) (v : JSValue) :
    ∀ init : Obj, (Obj.keys l).Nodup → Obj.get l k = some v → k ∈ allowed →
      Obj.get (sanitizeFold allowed init l) k = some v := by
  induction l with
  | nil => intro init _ h _; simp [Obj.get, List.find?] at h
  | cons hd tl ih =>
    intro init hnd h ha
    simp only [Obj.keys, List.map_cons, List.nodup_cons] at hnd
    rw [Obj.get_cons] at h
    rw [sanitizeFold_cons]
    by_cases hk : hd.1 = k
    · rw [if_pos hk] at h
      subst hk
      rw [sanitizeFold_get_not_mem _ _ _ _ hnd.1, if_pos ha, Obj.get_set_self]
      exact h
    · rw [if_neg hk] at h
      exact ih _ hnd.2 h ha

theorem sanitizeFold_mem_keys (allowed : List String) (l : Obj) (x : String) :
    ∀ init : Obj, x ∈ Obj.keys (sanitizeFold allowed init l) →
      x ∈ Obj.keys init ∨ x ∈ allowed := by
  induction l with
  | nil => intro init hx; exact Or.inl hx
  | cons hd tl ih =>
    intro init hx
    rw [sanitizeFold_cons] at hx
    rcases ih _ hx with hi | hi
    · by_cases ha : hd.1 ∈ allowed
      · rw [if_pos ha] at hi
        rcases Obj.mem_keys_set _ _ _ _ hi with hh | hh
        · exact Or.inl hh
        · exact Or.inr (hh ▸ ha)
      · rw [if_neg ha] at hi
        exact Or.inl hi
    · exact Or.inr hi

theorem keys_append (a b : Obj) : Obj.keys (a ++ b) = Obj.keys a ++ Obj.keys b := by
  simp [Obj.keys]

theorem numEntry_keys (k : String) (v : Option JSValue) (x : String)
    (hx : x ∈ Obj.keys (numEntry k v)) : x = k := by
  unfold numEntry at hx
  split at hx
  · simpa [Obj.keys] using hx
  · simp [Obj.keys] at hx

theorem seedreamBuild_keys_sub (p : String) (ci : Option Obj) (x : String)
    (hx : x ∈ Obj.keys (seedreamBuild p ci)) :
    x ∈ ["prompt", "aspect_ratio", "size", "guidance_scale", "seed", "width", "height"] := by
  unfold seedreamBuild at hx
  rw [keys_append, keys_append, keys_append] at hx
  simp only [List.mem_append] at hx
  rcases hx with ((hx | hx) | hx) | hx
  · simp only [Obj.keys, List.map_cons, List.map_nil, List.mem_cons,
      List.not_mem_nil, or_false] at hx
    rcases hx with h | h | h | h
    all_goals simp [h]
  · rw [numEntry_keys _ _ _ hx]; simp
  · rw [numEntry_keys _ _ _ hx]; simp
  · rw [numEntry_keys _ _ _ hx]; simp

theorem seedreamInit_get_ne (l : Obj) (k : String) (hk : k ≠ "guidance_scale") :
    Obj.get (seedreamInit l) k = none := by
  unfold seedreamInit
  split
  · split
    · rfl
    · rw [Obj.get_cons, if_neg (fun e => hk e.symm)]
      rfl
  · rfl

theorem seedream_aspect_default (p : String) (ci : Obj)
    (h : Obj.get ci "aspect_ratio" = none) :
    Obj.get (seedreamBuild p (some ci)) "aspect_ratio" = some (.str "9:16") := by
  have h1 : Obj.get (seedreamBuild p (some ci)) "aspect_ratio" =
      some (jsNullish (Obj.get (seedreamSanitize (some ci)) "aspect_ratio") (.str "9:16")) := rfl
  have h2 : Obj.get (seedreamSanitize (some ci)) "aspect_ratio" = none := by
    rw [show seedreamSanitize (some ci) =
        sanitizeFold seedreamAllowedKeys (seedreamInit ci) ci from rfl,
      sanitizeFold_get_not_mem _ _ _ _ ((Obj.get_eq_none_iff ci "aspect_ratio").mp h)]
    exact seedreamInit_get_ne ci "aspect_ratio" (by decide)
  rw [h1, h2]
  rfl

theorem seedream_size_default (p : String) (ci : Obj)
    (h : Obj.get ci "size" = none) :
    Obj.get (seedreamBuild p (some ci)) "size" = some (.str "regular") := by
  have h1 : Obj.get (seedreamBuild p (some ci)) "size" =
      some (jsNullish (Obj.get (seedreamSanitize (some ci)) "size") (.str "regular")) := rfl
  have h2 : Obj.get (seedreamSanitize (some ci)) "size" = none := by
    rw [show seedreamSanitize (some ci) =
        sanitizeFold seedreamAllowedKeys (seedreamInit ci) ci from rfl,
      sanitizeFold_get_not_mem _ _ _ _ ((Obj.get_eq_none_iff ci "size").mp h)]
    exact seedreamInit_get_ne ci "size" (by decide)
  rw [h1, h2]
  rfl

theorem seedream_gs_default (p : String) (ci : Obj)
    (h1 : Obj.get ci "guidance_scale" = none) (h2 : Obj.get ci "guidance" = none) :
    Obj.get (seedreamBuild p (some ci)) "guidance_scale" = some (.num (7/2)) := by
  have hb : Obj.get (seedreamBuild p (some ci)) "guidance_scale" =
      some (numOrD (Obj.get (seedreamSanitize (some ci)) "guidance_scale") (7/2)) := rfl
  have hs : Obj.get (seedreamSanitize (some ci)) "guidance_scale" = none := by
    rw [show seedreamSanitize (some ci) =
        sanitizeFold seedreamAllowedKeys (seedreamInit ci) ci from rfl,
      sanitizeFold_get_not_mem _ _ _ _ ((Obj.get_eq_none_iff ci _).mp h1)]
    unfold seedreamInit
    rw [h2]
    rfl
  rw [hb, hs]
  rfl

theorem seedream_no_guidance (p : String) (ci : Option Obj) :
    Obj.get (seedreamBuild p ci) "guidance" = none := by
  rw [Obj.get_eq_none_iff]
  intro hmem
  exact absurd (seedreamBuild_keys_sub p ci _ hmem) (by decide)

theorem seedream_gs_alias (p : String) (ci : Obj) (hnd : (Obj.keys ci).Nodup)
    (hg : Obj.get ci "guidance" = some (.num (7/2)))
    (hns : isNumV (Obj.get ci "guidance_scale") = false) :
    Obj.get (seedreamBuild p (some ci)) "guidance_scale" = some (.num (7/2)) := by
  have hb : Obj.get (seedreamBuild p (some ci)) "guidance_scale" =
      some (numOrD (Obj.get (seedreamSanitize (some ci)) "guidance_scale") (7/2)) := rfl
  have hinit : seedreamInit ci = [("guidance_scale", .num (7/2))] := by
    unfold seedreamInit
    rw [hg]
    simp [hns]
  have hfold : seedreamSanitize (some ci) =
      sanitizeFold seedreamAllowedKeys (seedreamInit ci) ci := rfl
  cases hgs : Obj.get ci "guidance_scale" with
  | none =>
    have hs : Obj.get (seedreamSanitize (some ci)) "guidance_scale" =
        some (.num (7/2)) := by
      rw [hfold, sanitizeFold_get_not_mem _ _ _ _ ((Obj.get_eq_none_iff ci _).mp hgs), hinit]
      rfl
    rw [hb, hs]
    rfl
  | some v =>
    have hs : Obj.get (seedreamSanitize (some ci)) "guidance_scale" = some v := by
      rw [hfold]
      exact sanitizeFold_get_mem _ _ _ _ _ hnd hgs (by decide)
    rw [hb, hs]
    rcases v with s | q | b | _ | _ | _
    · rfl
    · rw [hgs] at hns; simp [isNumV] at hns
    all_goals rfl

theorem seedream_gs_numeric (p : String) (ci : Obj) (q : ℚ) (hnd : (Obj.keys ci).Nodup)
    (hgs : Obj.get ci "guidance_scale" = some (.num q)) :
    Obj.get (seedreamBuild p (some ci)) "guidance_scale" = some (.num q) := by
  have hb : Obj.get (seedreamBuild p (some ci)) "guidance_scale" =
      some (numOrD (Obj.get (seedreamSanitize (some ci)) "guidance_scale") (7/2)) := rfl
  have hs : Obj.get (seedreamSanitize (some ci)) "guidance_scale" = some (.num q) := by
    rw [show seedreamSanitize (some ci) =
        sanitizeFold seedreamAllowedKeys (seedreamInit ci) ci from rfl]
    exact sanitizeFold_get_mem _ _ _ _ _ hnd hgs (by decide)
  rw [hb, hs]
  rfl

theorem extImagen_mem (ct : String) :
    extImagen ct = "png" ∨ extImagen ct = "jpg" ∨ extImagen ct = "webp" := by
  unfold extImagen
  repeat' split
  all_goals simp

theorem extSeedream_mem (ct : String) :
    extSeedream ct = "png" ∨ extSeedream ct = "jpg" ∨ extSeedream ct = "webp" := by
  unfold extSeedream
  repeat' split
  all_goals simp

theorem extServer_mem (ct : String) :
    extServer ct = "png" ∨ extServer ct = "jpg" ∨ extServer ct = "webp" := by
  unfold extServer
  repeat' split
  all_goals simp

/-- C1 (counterexample): the claim's shape order is violated by a list
output.  A singleton array holding an http(s) URL string — the claim's
shape (2), which should recurse and resolve as a remote URL — is handled by
the failure branch of the seedream-3 resolver (generate.js lines 72-124),
while the very same string on its own resolves as a URL.  So an output
matching an earlier claimed shape IS handled by the later failure branch. -/
theorem c1_shape_order_counterexample :
    resolveShape (.jarr [.jstr "https://example.com/a.png"]) =
      .unrecognizedShape "object" false false false ∧
    resolveShape (.jstr "https://example.com/a.png") =
      .fetchFromString "https://example.com/a.png" := by
  constructor
  · rfl
  · decide

/-- C1 (amended): the seedream-3 resolver attempts, in order: (1) an object
with a callable url accessor, (2) raw binary (Blob, with its declared
non-empty type as content-type, or Uint8Array with the image/jpeg default),
(3) a plain string matching the http(s) test, and otherwise (4) fails with
UnrecognizedOutputShape carrying the observed typeof and the shape checks;
exactly one outcome results per output since resolveShape is a total
function.  Arrays are not handled and fall to the failure branch.  In
extractUrl (generate-image.js lines 158-168) an array is answered by its
first element without any recursion. -/
theorem c1_shape_order_amended :
    (∀ (u : String) (oa : Option String),
        resolveShape (.jobj (some (.fn u)) oa) = .fetchFromUrlFn u) ∧
    (∀ (d : List ℕ) (t : String),
        resolveShape (.jblob d t) = .directBytes d (if t = "" then "image/jpeg" else t)) ∧
    (∀ d : List ℕ, resolveShape (.juint8 d) = .directBytes d "image/jpeg") ∧
    (∀ s : String, httpTest s = true → resolveShape (.jstr s) = .fetchFromString s) ∧
    (∀ xs : List JSOut,
        resolveShape (.jarr xs) = .unrecognizedShape "object" false false false) ∧
    (∀ (x : JSOut) (xs : List JSOut), truthyOut x = true →
        extractUrl (.jarr (x :: xs)) = some x) := by
  refine ⟨fun u oa => rfl, fun d t => rfl, fun d => rfl, ?_, fun xs => rfl, ?_⟩
  · intro s h
    simp [resolveShape, hasUrlFn, urlAttrOf, isBlobOut, isUint8Out, isHttpString, strValOf, h]
  · intro x xs hx
    have hn : nullishOut x = false := by
      cases x <;> simp_all [truthyOut, nullishOut]
    simp [extractUrl, truthyOut, hn]

/-- C1 (witness): the amended order theorem applied at a concrete http
string and at a concrete array head. -/
theorem c1_shape_order_amended_witness :
    resolveShape (.jstr "https://w.example/a.png") =
      .fetchFromString "https://w.example/a.png" ∧
    extractUrl (.jarr [.jstr "x", .jnull]) = some (.jstr "x") := by
  exact ⟨c1_shape_order_amended.2.2.2.1 "https://w.example/a.png" (by decide),
    c1_shape_order_amended.2.2.2.2.2 (.jstr "x") [.jnull] (by decide)⟩

/-- C2 (counterexample): the flux-dev input build has no allow-list.  The
caller key "not_a_flux_param", which is outside the parameter names the
build itself introduces, is spread into the provider input verbatim
(server.js lines 41-55; generate-image.js lines 42-58). -/
theorem c2_allowlist_counterexample :
    Obj.get (fluxModelInput (.str "p") (some [("not_a_flux_param", .num 1)]) false)
      "not_a_flux_param" = some (.num 1) ∧
    "not_a_flux_param" ∉ fluxDefaultKeys := by
  constructor
  · decide
  · decide

/-- C2 (amended): for the handlers that do carry an allow-list, the claim
holds: the seedream-3 input never contains a key outside prompt plus the
allow-list, with no client input it is exactly the defaults, and each
default (aspect_ratio "9:16", size "regular", guidance_scale 3.5) is
present whenever the caller did not supply that key; the imagen-4 input
always has exactly the keys prompt, aspect_ratio and safety_filter_level.
The flux-dev build instead passes every caller key through (see the
counterexample). -/
theorem c2_allowlist_amended :
    (∀ (p : String) (ci : Option Obj) (x : String),
        x ∈ Obj.keys (seedreamBuild p ci) → x ∈ "prompt" :: seedreamAllowedKeys) ∧
    (∀ p : String, seedreamBuild p none =
        [("prompt", .str p), ("aspect_ratio", .str "9:16"),
         ("size", .str "regular"), ("guidance_scale", .num (7/2))]) ∧
    (∀ (p : String) (ci : Obj), Obj.get ci "aspect_ratio" = none →
        Obj.get (seedreamBuild p (some ci)) "aspect_ratio" = some (.str "9:16")) ∧
    (∀ (p : String) (ci : Obj), Obj.get ci "size" = none →
        Obj.get (seedreamBuild p (some ci)) "size" = some (.str "regular")) ∧
    (∀ (p : String) (ci : Obj), Obj.get ci "guidance_scale" = none →
        Obj.get ci "guidance" = none →
        Obj.get (seedreamBuild p (some ci)) "guidance_scale" = some (.num (7/2))) ∧
    (∀ (p : String) (s : Obj),
        Obj.keys (imagenInput p s) = ["prompt", "aspect_ratio", "safety_filter_level"]) := by
  refine ⟨?_, fun p => rfl, seedream_aspect_default, seedream_size_default,
    seedream_gs_default, fun p s => rfl⟩
  intro p ci x hx
  have h7 := seedreamBuild_keys_sub p ci x hx
  simp only [List.mem_cons, List.not_mem_nil, or_false] at h7 ⊢
  rcases h7 with rfl | rfl | rfl | rfl | rfl | rfl | rfl
  all_goals simp [seedreamAllowedKeys]

/-- C2 (witness): the amended theorem applied to a client input that omits
aspect_ratio, size and both guidance keys. -/
theorem c2_allowlist_amended_witness :
    Obj.get (seedreamBuild "p" (some [("seed", .num 1)])) "aspect_ratio" =
      some (.str "9:16") ∧
    Obj.get (seedreamBuild "p" (some [("seed", .num 1)])) "guidance_scale" =
      some (.num (7/2)) := by
  exact ⟨c2_allowlist_amended.2.2.1 "p" [("seed", .num 1)] (by decide),
    c2_allowlist_amended.2.2.2.2.1 "p" [("seed", .num 1)] (by decide) (by decide)⟩

/-- C3 (counterexample): an accepted video request with a successful
provider run is answered synchronously with status 200 and body
`{type:"video", path, url}` — not 202, and with no processing/predictionId
acknowledgment (generate-image.js lines 270-338 wait for the provider and
materialize before responding). -/
theorem c3_video_async_counterexample :
    handleVideoGeneration videoOkEnv (some "p") (some (.str "https://img.example/s.png"))
      (some "u1") (some "c1") none =
      (⟨200, .videoOk "u1/c1/videos/uuid-1.mp4"
          "https://cdn.example/u1/c1/videos/uuid-1.mp4"⟩,
       ⟨1, [("u1/c1/videos/uuid-1.mp4", "video/mp4")], 0⟩) ∧
    (handleVideoGeneration videoOkEnv (some "p") (some (.str "https://img.example/s.png"))
      (some "u1") (some "c1") none).1.status ≠ 202 := by
  constructor
  · decide
  · decide

/-- C3 (amended): video generation is synchronous.  Whenever the handler
responds with a video-success body, the status is 200, the returned url is
the public URL of the returned path, and exactly one upload of that path
was already performed before responding; no 202/processing response shape
exists in the handler. -/
theorem c3_video_sync_amended (env : Env) (p : Option String) (img : Option JSValue)
    (u c : Option String) (ci : Option Obj) :
    ∀ pth url, (handleVideoGeneration env p img u c ci).1.body = .videoOk pth url →
      (handleVideoGeneration env p img u c ci).1.status = 200 ∧
      url = env.publicUrl pth ∧
      ∃ ct, (handleVideoGeneration env p img u c ci).2.uploads = [(pth, ct)] := by
  intro pth url
  simp only [handleVideoGeneration]
  repeat' split
  all_goals intro hb
  all_goals simp_all
  all_goals rw [← hb.1, ← hb.2]

/-- C3 (witness): the amended theorem applied to the concrete successful
video run. -/
theorem c3_video_sync_amended_witness :
    (handleVideoGeneration videoOkEnv (some "p") (some (.str "https://img.example/s.png"))
      (some "u1") (some "c1") none).1.status = 200 ∧
    "https://cdn.example/u1/c1/videos/uuid-1.mp4" =
      videoOkEnv.publicUrl "u1/c1/videos/uuid-1.mp4" ∧
    ∃ ct, (handleVideoGeneration videoOkEnv (some "p")
        (some (.str "https://img.example/s.png")) (some "u1") (some "c1") none).2.uploads =
      [("u1/c1/videos/uuid-1.mp4", ct)] := by
  exact c3_video_sync_amended videoOkEnv (some "p") (some (.str "https://img.example/s.png"))
    (some "u1") (some "c1") none "u1/c1/videos/uuid-1.mp4"
    "https://cdn.example/u1/c1/videos/uuid-1.mp4" (by decide)

/-- C4 (counterexample): in the flux-dev build the caller's input is spread
last, so a caller-supplied prompt replaces the mandatory request prompt
(server.js line 52; generate-image.js line 53). -/
theorem c4_prompt_override_counterexample :
    Obj.get (fluxModelInput (.str "mandatory") (some [("prompt", .str "override")]) false)
      "prompt" = some (.str "override") ∧
    Obj.get (fluxModelInput (.str "mandatory") (some [("prompt", .str "override")]) false)
      "prompt" ≠ some (.str "mandatory") := by
  constructor
  · decide
  · decide

/-- C4 (amended): in the seedream-3, imagen-4 and kling video input builds
the prompt (and, for video, the resolved start image) always equals the
mandatory request value — the caller's dictionary cannot omit or override
them, since prompt is not copied from the client input in those builds.
In the flux-dev build the caller CAN override prompt (see the
counterexample). -/
theorem c4_prompt_mandatory_amended :
    (∀ (p : String) (ci : Option Obj),
        Obj.get (seedreamBuild p ci) "prompt" = some (.str p)) ∧
    (∀ (p : String) (s : Obj), Obj.get (imagenInput p s) "prompt" = some (.str p)) ∧
    (∀ (p : String) (si : JSValue) (s : Obj),
        Obj.get (videoInput p si s) "prompt" = some (.str p) ∧
        Obj.get (videoInput p si s) "start_image" = some si) :=
  ⟨fun _ _ => rfl, fun _ _ => rfl, fun _ _ _ => ⟨rfl, rfl⟩⟩

/-- C5 (counterexample): after a successful video materialization and
upload, a failing chat-message insert (the environment's insert outcome is
an error) does not change the response: the handler still answers 200 with
the video body, because the insert sits in an empty catch
(generate-image.js lines 324-334).  The insert was attempted exactly once. -/
theorem c5_insert_swallowed_counterexample :
    videoFailInsertEnv.insertError = some ⟨some "insert failed", none⟩ ∧
    (handleVideoGeneration videoFailInsertEnv (some "p") (some (.str "s")) (some "u1")
      (some "c1") (some [("text", .str "hello")])).1 =
      ⟨200, .videoOk "u1/c1/videos/uuid-1.mp4"
        "https://cdn.example/u1/c1/videos/uuid-1.mp4"⟩ ∧
    (handleVideoGeneration videoFailInsertEnv (some "p") (some (.str "s")) (some "u1")
      (some "c1") (some [("text", .str "hello")])).2.insertAttempts = 1 := by
  refine ⟨rfl, ?_, ?_⟩
  · decide
  · decide

/-- C5 (amended): the failure of the chat-message reference insert is
swallowed, not propagated: the handler's response and effects are
completely independent of the insert outcome — replacing the environment's
insert outcome by any error (or by success) leaves the result unchanged. -/
theorem c5_insert_swallowed_amended (env : Env) (e : Option JsErr) (p : Option String)
    (img : Option JSValue) (u c : Option String) (ci : Option Obj) :
    handleVideoGeneration { env with insertError := e } p img u c ci =
      handleVideoGeneration { env with insertError := none } p img u c ci := rfl

/-- C6 (confirmed): when every provider attempt fails, runWithRetry with
the deployed bound of 2 makes exactly 2 calls (not 3), sleeps exactly once
between them for 300 + the random draw milliseconds — a randomized delay
in [300, 800) — and then throws the last error; handleImageGeneration
surfaces that failure as the error response derived from the thrown error
(status err.status-or-500, message err.message-or-default), having made
exactly 2 provider calls. -/
theorem c6_retry_two_attempts (attempt : ℕ → Except JsErr JSOut) (rf : ℕ → ℕ)
    (e0 e1 : JsErr) (h0 : attempt 0 = .error e0) (h1 : attempt 1 = .error e1)
    (hr : rf 0 < 500) :
    runWithRetry attempt rf 2 = ⟨.error (some e1), 2, [300 + rf 0]⟩ ∧
    300 ≤ 300 + rf 0 ∧ 300 + rf 0 < 800 ∧
    ∀ (env : Env) (p u c : Option String) (ci : Option Obj),
      env.attemptResult = (fun _ _ => attempt) → env.randFloor = rf →
      reqMissing p u c = false →
      handleImageGeneration env p u c ci =
        (⟨jsErrStatus (some e1), .errorBody (jsErrMsg (some e1) "Image generation failed")⟩,
         ⟨2, [], 0⟩) := by
  refine ⟨?_, by omega, by omega, ?_⟩
  · simp [runWithRetry, runLoop, h0, h1]
  · intro env p u c ci hA hR hreq
    simp [handleImageGeneration, hreq, hA, hR, runWithRetry, runLoop, h0, h1]

/-- C6 (witness): the retry-bound theorem applied to an always-failing
provider with a concrete random draw of 42. -/
theorem c6_retry_two_attempts_witness :
    runWithRetry (fun _ => .error failErr) (fun _ => 42) 2 =
      ⟨.error (some failErr), 2, [300 + 42]⟩ ∧
    handleImageGeneration retryFailEnv (some "p") (some "u") (some "c") none =
      (⟨jsErrStatus (some failErr), .errorBody (jsErrMsg (some failErr) "Image generation failed")⟩,
       ⟨2, [], 0⟩) := by
  have h := c6_retry_two_attempts (fun _ => .error failErr) (fun _ => 42) failErr failErr
    rfl rfl (by decide)
  exact ⟨h.1, h.2.2.2 retryFailEnv (some "p") (some "u") (some "c") none rfl rfl (by decide)⟩

/-- C7 (confirmed): whenever prompt, userId or characterId is missing or
empty, every handler responds 400 with the required-fields error and
performs no side effect at all — in particular zero provider calls. -/
theorem c7_missing_required_400 (env : Env) (ds : Bool) (gt : ℕ) (p : Option String)
    (img : Option JSValue) (u c : Option String) (ci : Option Obj)
    (h : reqMissing p u c = true) :
    handleImageGeneration env p u c ci =
      (⟨400, .errorBody "prompt, userId, characterId required"⟩, noFx) ∧
    handleVideoGeneration env p img u c ci =
      (⟨400, .errorBody "prompt, userId, characterId required"⟩, noFx) ∧
    seedreamHandler env gt p u c ci =
      (⟨400, .errorBody "prompt, userId, characterId required"⟩, noFx) ∧
    serverGenerate env ds p u c ci =
      (⟨400, .errorBody "prompt, userId, characterId required"⟩, noFx) := by
  refine ⟨?_, ?_, ?_, ?_⟩ <;>
    simp [handleImageGeneration, handleVideoGeneration, seedreamHandler, serverGenerate, h]

/-- C7 (witness): the missing-field theorem applied to a request with no
fields at all (note noFx records zero provider calls). -/
theorem c7_missing_required_400_witness :
    handleImageGeneration retryFailEnv none none none none =
      (⟨400, .errorBody "prompt, userId, characterId required"⟩, noFx) ∧
    handleVideoGeneration retryFailEnv none none none none none =
      (⟨400, .errorBody "prompt, userId, characterId required"⟩, noFx) ∧
    seedreamHandler retryFailEnv 0 none none none none =
      (⟨400, .errorBody "prompt, userId, characterId required"⟩, noFx) ∧
    serverGenerate retryFailEnv false none none none none =
      (⟨400, .errorBody "prompt, userId, characterId required"⟩, noFx) :=
  c7_missing_required_400 retryFailEnv false 0 none none none none none (by decide)

/-- C8 (confirmed): every storage upload any handler attempts uses a path
of the form userId/characterId/uuid.ext (ext one of png, jpg, webp for the
image handlers), and the video handler nests the file under a videos/
segment: userId/characterId/videos/uuid.mp4. -/
theorem c8_storage_path_shape (env : Env) (ds : Bool) (gt : ℕ) (p : Option String)
    (img : Option JSValue) (us cs : String) (ci : Option Obj) :
    (∀ pc ∈ (seedreamHandler env gt p (some us) (some cs) ci).2.uploads,
        ∃ ext, (ext = "png" ∨ ext = "jpg" ∨ ext = "webp") ∧
          pc.1 = us ++ "/" ++ cs ++ "/" ++ env.uuid ++ "." ++ ext) ∧
    (∀ pc ∈ (handleImageGeneration env p (some us) (some cs) ci).2.uploads,
        ∃ ext, (ext = "png" ∨ ext = "jpg" ∨ ext = "webp") ∧
          pc.1 = us ++ "/" ++ cs ++ "/" ++ env.uuid ++ "." ++ ext) ∧
    (∀ pc ∈ (serverGenerate env ds p (some us) (some cs) ci).2.uploads,
        ∃ ext, (ext = "png" ∨ ext = "jpg" ∨ ext = "webp") ∧
          pc.1 = us ++ "/" ++ cs ++ "/" ++ env.uuid ++ "." ++ ext) ∧
    (∀ pc ∈ (handleVideoGeneration env p img (some us) (some cs) ci).2.uploads,
        pc.1 = us ++ "/" ++ cs ++ "/videos/" ++ env.uuid ++ ".mp4") := by
  refine ⟨?_, ?_, ?_, ?_⟩
  · intro pc hpc
    simp only [seedreamHandler, seedreamFetch, seedreamUpload] at hpc
    repeat' split at hpc
    all_goals dsimp only at hpc
    all_goals first
      | exact absurd hpc (List.not_mem_nil _)
      | (rw [List.mem_singleton] at hpc; subst hpc; refine ⟨_, ?_, rfl⟩;
         exact extSeedream_mem _)
  · intro pc hpc
    simp only [handleImageGeneration] at hpc
    repeat' split at hpc
    all_goals dsimp only at hpc
    all_goals first
      | exact absurd hpc (List.not_mem_nil _)
      | (rw [List.mem_singleton] at hpc; subst hpc; refine ⟨_, ?_, rfl⟩;
         exact extImagen_mem _)
  · intro pc hpc
    simp only [serverGenerate] at hpc
    repeat' split at hpc
    all_goals dsimp only at hpc
    all_goals first
      | exact absurd hpc (List.not_mem_nil _)
      | (rw [List.mem_singleton] at hpc; subst hpc; refine ⟨_, ?_, rfl⟩;
         exact extServer_mem _)
  · intro pc hpc
    simp only [handleVideoGeneration] at hpc
    repeat' split at hpc
    all_goals dsimp only at hpc
    all_goals first
      | exact absurd hpc (List.not_mem_nil _)
      | (rw [List.mem_singleton] at hpc; subst hpc; rfl)

/-- C8 (witness): the path-shape theorem applied to the concrete uploads of
a successful seedream image run and a successful video run. -/
theorem c8_storage_path_shape_witness :
    (∃ ext, (ext = "png" ∨ ext = "jpg" ∨ ext = "webp") ∧
      ("u1/c1/uuid-1.png", "image/png").1 =
        "u1" ++ "/" ++ "c1" ++ "/" ++ imageOkEnv.uuid ++ "." ++ ext) ∧
    ("u1/c1/videos/uuid-1.mp4", "video/mp4").1 =
      "u1" ++ "/" ++ "c1" ++ "/videos/" ++ videoOkEnv.uuid ++ ".mp4" := by
  refine ⟨?_, ?_⟩
  · exact (c8_storage_path_shape imageOkEnv false 7 (some "p") none "u1" "c1" none).1
      ("u1/c1/uuid-1.png", "image/png") (by decide)
  · exact (c8_storage_path_shape videoOkEnv false 7 (some "p")
      (some (.str "https://img.example/s.png")) "u1" "c1" none).2.2.2
      ("u1/c1/videos/uuid-1.mp4", "video/mp4") (by decide)

/-- C9 (confirmed): the guidance → guidance_scale legacy alias of the
seedream-3 handler.  For a client input with guidance: 3.5 (a number) and
no numeric guidance_scale, the provider input has guidance_scale: 3.5 and
no guidance key; a caller-supplied numeric guidance_scale always wins; and
no provider input ever contains a guidance key.  (Key lists are
duplicate-free, as JavaScript object entries are.) -/
theorem c9_guidance_alias :
    (∀ (p : String) (ci : Obj), (Obj.keys ci).Nodup →
        Obj.get ci "guidance" = some (.num (7/2)) →
        isNumV (Obj.get ci "guidance_scale") = false →
        Obj.get (seedreamBuild p (some ci)) "guidance_scale" = some (.num (7/2)) ∧
        Obj.get (seedreamBuild p (some ci)) "guidance" = none) ∧
    (∀ (p : String) (ci : Obj) (q : ℚ), (Obj.keys ci).Nodup →
        Obj.get ci "guidance_scale" = some (.num q) →
        Obj.get (seedreamBuild p (some ci)) "guidance_scale" = some (.num q)) ∧
    (∀ (p : String) (ci : Option Obj), Obj.get (seedreamBuild p ci) "guidance" = none) := by
  refine ⟨?_, seedream_gs_numeric, seedream_no_guidance⟩
  intro p ci hnd hg hns
  exact ⟨seedream_gs_alias p ci hnd hg hns, seedream_no_guidance p (some ci)⟩

/-- C9 (witness): the alias theorem applied to the concrete client input
with guidance: 3.5 and no guidance_scale, and to one with a numeric
guidance_scale of 5 beside guidance: 2. -/
theorem c9_guidance_alias_witness :
    (Obj.get (seedreamBuild "p" (some [("guidance", .num (7/2))])) "guidance_scale" =
      some (.num (7/2)) ∧
     Obj.get (seedreamBuild "p" (some [("guidance", .num (7/2))])) "guidance" = none) ∧
    Obj.get (seedreamBuild "p" (some [("guidance", .num 2), ("guidance_scale", .num 5)]))
      "guidance_scale" = some (.num 5) := by
  refine ⟨?_, ?_⟩
  · exact c9_guidance_alias.1 "p" [("guidance", .num (7/2))] (by decide) rfl rfl
  · exact c9_guidance_alias.2.1 "p" [("guidance", .num 2), ("guidance_scale", .num 5)] 5
      (by decide) rfl

/-- C10 (confirmed): although the flux-dev build merges the caller's fields
over every default (including disable_safety_checker), the megapixels field
of the input actually sent to the provider is always the string "1" or
"0.25"; any other caller-supplied megapixels value is clamped to "1" before
the provider call (server.js lines 54-55; generate-image.js lines 56-58). -/
theorem c10_megapixels_clamp :
    (∀ (p : JSValue) (ci : Option Obj) (ds : Bool),
        Obj.get (fluxModelInput p ci ds) "megapixels" = some (.str "1") ∨
        Obj.get (fluxModelInput p ci ds) "megapixels" = some (.str "0.25")) ∧
    (∀ (p : JSValue) (l : Obj) (ds : Bool) (v : JSValue), (Obj.keys l).Nodup →
        Obj.get l "megapixels" = some v → v ≠ .str "1" → v ≠ .str "0.25" →
        Obj.get (fluxModelInput p (some l) ds) "megapixels" = some (.str "1")) := by
  constructor
  · intro p ci ds
    unfold fluxModelInput clampMegapixels
    split
    · rw [Obj.get_set_self]
      exact Or.inl rfl
    · rename_i h
      push_neg at h
      by_cases h1 : Obj.get (fluxDevInput p ci ds) "megapixels" = some (.str "1")
      · exact Or.inl h1
      · exact Or.inr (h h1)
  · intro p l ds v hnd hv h1 h2
    have hd : Obj.get (fluxDevInput p (some l) ds) "megapixels" = some v := by
      unfold fluxDevInput
      exact Obj.spread_get_mem _ _ _ _ hnd hv
    unfold fluxModelInput clampMegapixels
    rw [if_pos ⟨by rw [hd]; simp [h1], by rw [hd]; simp [h2]⟩]
    exact Obj.get_set_self _ _ _

/-- C10 (witness): the clamp theorem applied to a caller-supplied
megapixels of "9" (clamped to "1") and, for the first part, a caller who
sent no megapixels at all. -/
theorem c10_megapixels_clamp_witness :
    (Obj.get (fluxModelInput (.str "p") none true) "megapixels" = some (.str "1") ∨
     Obj.get (fluxModelInput (.str "p") none true) "megapixels" = some (.str "0.25")) ∧
    Obj.get (fluxModelInput (.str "p") (some [("megapixels", .str "9")]) false)
      "megapixels" = some (.str "1") := by
  refine ⟨c10_megapixels_clamp.1 (.str "p") none true, ?_⟩
  exact c10_megapixels_clamp.2 (.str "p") [("megapixels", .str "9")] false (.str "9")
    (by decide) (by decide) (by decide) (by decide)
